import Mathlib

/-!
Verification of the dc-ts command-processing core against its specification.

The development shallowly embeds the Result algebra (src/core/result),
the structural validator (src/core/parsing/safeparse.ts), the message and
causality builder (src/core/messages), the workflow composition engine
(src/core/workflows.ts, in the version whose composeWf returns execute,
decide and evolve members), and the example dispatch router.

Modelling conventions:
  - TypeScript `data?: any` diagnostic payloads are modelled as Option String;
  - the side effects of the message builder (uuid() and Date.now()) are
    modelled as explicit freshId / freshCorr / now parameters;
  - JavaScript truthiness of an optional string (undefined and the empty
    string are falsy) is modelled by truthyStr;
  - the untyped value produced by the JavaScript expression
    `evt.reduce(_evolve, s)` is modelled by the defunctionalized universe
    JsVal: Array.prototype.reduce invokes its callback as
    callback(accumulator, element), and since the evolve function is curried
    with a single declared parameter, each step returns the partial
    application of the evolve function to the accumulator (a closure) and
    ignores the element; JsVal.closure f v stands for that partial
    application of f to the value v.
-/

namespace DcTs

/-- Failure cause of the Result algebra: an error code plus an optional
diagnostic payload (src/core/result, type Cause). -/
structure Cause (F : Type) : Type where
  msg : F
  data : Option String

/-- Discriminated union of a success carrying data and a failure carrying a
list of causes (src/core/result, type Result). -/
inductive Result (T : Type) (F : Type) : Type where
  | success : T → Result T F
  | failure : List (Cause F) → Result T F

/-- Constructor succeed(data) of the Result algebra. -/
def succeed {T F : Type} (data : T) : Result T F :=
  Result.success data

/-- Constructor fail(msg, data?) of the Result algebra: a failure with
exactly one cause. -/
def fail {T F : Type} (msg : F) (data : Option String) : Result T F :=
  Result.failure [Cause.mk msg data]

/-- Constructor failMany(cause) of the Result algebra: a failure carrying
the given cause list verbatim, with no non-emptiness check. -/
def failMany {T F : Type} (cause : List (Cause F)) : Result T F :=
  Result.failure cause

/-- Predicate isFailure(res) of the Result algebra. -/
def isFailure {T F : Type} : Result T F → Bool
  | Result.failure _ => true
  | Result.success _ => false

/-- Predicate isSuccess(res) of the Result algebra. -/
def isSuccess {T F : Type} : Result T F → Bool
  | Result.success _ => true
  | Result.failure _ => false

/-- Combinator acceptRes(fn)(res): a failure is returned unchanged, a
success has fn applied to its data. -/
def acceptRes {T U F : Type} (fn : T → Result U F) : Result T F → Result U F
  | Result.failure cs => Result.failure cs
  | Result.success d => fn d

/-- Cause list of a Result: the cause field of a failure, nil for a
success. Used to express properties of the failure representation. -/
def causesOf {T F : Type} : Result T F → List (Cause F)
  | Result.failure cs => cs
  | Result.success _ => []

/-- Structural validator safeParseTBox(schema) (src/core/parsing/safeparse.ts).
The TypeBox call Value.Assert(schema, data) either returns normally or throws
a violation; the schema is therefore modelled as a check function returning
none when the data conforms and some violation otherwise. The try/catch of
the source catches the violation and returns fail with code parse_error and
the violation attached as diagnostic data; totality of this definition
reflects that the validator never lets an exception escape. -/
def safeParseTBox {α : Type} (check : α → Option String) (data : α) :
    Result α String :=
  match check data with
  | none => succeed data
  | some e => fail "parse_error" (some e)

/-- Domain trace of a message (src/core/messages, type DomainTrace): both
fields are string-or-undefined in the source. -/
structure DomainTrace : Type where
  correlationid : Option String
  causationid : Option String

/-- Message record (src/core/messages, type Msg). msgType is the literal
cmd or evt; id, timestamp come from the generator; the trace fields come
from the cleaned domain trace. -/
structure Msg (D : Type) : Type where
  id : String
  msgType : String
  type : String
  timestamp : Int
  correlationid : Option String
  causationid : Option String
  data : D

/-- JavaScript truthiness of an optional string: undefined and the empty
string are falsy, every other string is truthy. -/
def truthyStr : Option String → Bool
  | none => false
  | some s => if s = "" then false else true

/-- Trace normalization cleanDT(dt) (src/core/messages): a missing trace
becomes a fresh root trace (fresh correlationid, causationid cleared); a
trace without a truthy correlationid receives a fresh correlationid while
keeping its causationid; any other trace is returned unchanged. The fresh
uuid() call is modelled by the freshCorr parameter. -/
def cleanDT (freshCorr : String) (dt : Option DomainTrace) : DomainTrace :=
  match dt with
  | none => DomainTrace.mk (some freshCorr) none
  | some d =>
    if truthyStr d.correlationid then d
    else DomainTrace.mk (some freshCorr) d.causationid

/-- Message assembly newMsg(msgType)(type)(domaintrace)(data)
(src/core/messages): a record with a fresh id, the current timestamp, and
the fields of the supplied (already cleaned) trace. uuid() and Date.now()
are modelled by the freshId and now parameters. -/
def newMsg {D : Type} (freshId : String) (now : Int) (msgType ty : String)
    (dt : DomainTrace) (d : D) : Msg D :=
  Msg.mk freshId msgType ty now dt.correlationid dt.causationid d

/-- Trace derivation dtFromMsg(msg) (src/core/messages): the trace a caller
must use to build the next message of the causal chain. -/
def dtFromMsg {D : Type} (m : Msg D) : DomainTrace :=
  DomainTrace.mk m.correlationid (some m.id)

/-- Builder parsedNewMsg (src/core/messages): clean the trace, assemble the
message, then validate it with the supplied parser, returning the parsing
result. -/
def parsedNewMsg {D F : Type} (freshId freshCorr : String) (now : Int)
    (msgType : String) (parseMsg : Msg D → Result (Msg D) F)
    (ty : String) (dt : Option DomainTrace) (d : D) : Result (Msg D) F :=
  parseMsg (newMsg freshId now msgType ty (cleanDT freshCorr dt) d)

/-- Command builder newCmd (src/core/messages): parsedNewMsg at msgType cmd. -/
def newCmd {D F : Type} (freshId freshCorr : String) (now : Int)
    (parseCmd : Msg D → Result (Msg D) F) (ty : String)
    (dt : Option DomainTrace) (d : D) : Result (Msg D) F :=
  parsedNewMsg freshId freshCorr now "cmd" parseCmd ty dt d

/-- Event builder newEvt (src/core/messages): parsedNewMsg at msgType evt. -/
def newEvt {D F : Type} (freshId freshCorr : String) (now : Int)
    (parseEvt : Msg D → Result (Msg D) F) (ty : String)
    (dt : Option DomainTrace) (d : D) : Result (Msg D) F :=
  parsedNewMsg freshId freshCorr now "evt" parseEvt ty dt d

/-- Accumulator of the applyConstrains reduce (src/core/workflows.ts): a
failedOnce flag and the result kept so far. -/
structure ConstraintAcc (S F : Type) : Type where
  failedOnce : Bool
  res : Result S F

/-- Body of the applyConstrains reduce: the constraint is applied to the
command and the current state; if its result is a failure and no failure
has been recorded yet, the accumulator records it, otherwise the
accumulator is returned unchanged. -/
def constrainStep {C S F : Type} (cmd : C) (st : S)
    (acc : ConstraintAcc S F) (fn : C → S → Result S F) : ConstraintAcc S F :=
  if isFailure (fn cmd st) then
    if acc.failedOnce then acc else ConstraintAcc.mk true (fn cmd st)
  else acc

/-- applyConstrains(fns)(cmd)(currState) (src/core/workflows.ts): reduce
over the constraint list starting from succeed(currState), keeping the
first failure encountered. -/
def applyConstrains {C S F : Type} (fns : List (C → S → Result S F))
    (cmd : C) (st : S) : Result S F :=
  (fns.foldl (constrainStep cmd st) (ConstraintAcc.mk false (succeed st))).res

/-- Body of the applyConstrains reduce instrumented with an invocation
counter: the reduce body evaluates fn(cmd)(currState) on every element of
the list before inspecting the accumulator, so each pass counts one
constraint invocation. -/
def constrainStepTraced {C S F : Type} (cmd : C) (st : S)
    (p : ConstraintAcc S F × Nat) (fn : C → S → Result S F) :
    ConstraintAcc S F × Nat :=
  (constrainStep cmd st p.1 fn, p.2 + 1)

/-- applyConstrains together with the number of constraint invocations the
reduce performs. -/
def applyConstrainsTraced {C S F : Type} (fns : List (C → S → Result S F))
    (cmd : C) (st : S) : Result S F × Nat :=
  let acc := fns.foldl (constrainStepTraced cmd st)
    (ConstraintAcc.mk false (succeed st), 0)
  (acc.1.res, acc.2)

/-- Universe of the untyped JavaScript value computed by the expression
`evt.reduce(_evolve, s)` of the execute member (src/core/workflows.ts):
either a state, or the closure obtained by partially applying the curried
evolve function to one value. Array.prototype.reduce passes the accumulator
as first argument; the curried evolve function binds it to its event
parameter and returns a closure, ignoring the actual event element. -/
inductive JsVal (E S : Type) : Type where
  | st : S → JsVal E S
  | closure : (E → S → S) → JsVal E S → JsVal E S

/-- The JavaScript evaluation of `evt.reduce(_evolve, s)`: the accumulator
starts at the state s, and every step replaces it with the partial
application of the evolve function to the current accumulator. An empty
event list returns the initial state unchanged. -/
def jsReduceEvolve {E S : Type} (ev : E → S → S) (evts : List E) (s : S) :
    JsVal E S :=
  evts.foldl (fun acc _e => JsVal.closure ev acc) (JsVal.st s)

/-- Success payload of the execute member: the decided event list and the
value the evolve reduce produced for the new state. -/
structure ExecuteRes (E S : Type) : Type where
  evt : List E
  state : JsVal E S

/-- The execute member built by composeWf (src/core/workflows.ts): validate
the state, apply the constraints, decide, and on a successful decision
return the events together with the result of `evt.reduce(_evolve, s)`
(the failWithRes of the source is the identity on failures). -/
def executeWf {C S E F : Type} (parse : S → Result S F)
    (cons : List (C → S → Result S F)) (dec : C → S → Result (List E) F)
    (ev : E → S → S) (c : C) (s : S) : Result (ExecuteRes E S) F :=
  match acceptRes (dec c) (acceptRes (applyConstrains cons c) (parse s)) with
  | Result.failure cs => Result.failure cs
  | Result.success evt =>
      Result.success (ExecuteRes.mk evt (jsReduceEvolve ev evt s))

/-- The decide member built by composeWf (src/core/workflows.ts): the same
validation, constraint and decision chain, returning the decision result. -/
def decideWf {C S E F : Type} (parse : S → Result S F)
    (cons : List (C → S → Result S F)) (dec : C → S → Result (List E) F)
    (c : C) (s : S) : Result (List E) F :=
  acceptRes (dec c) (acceptRes (applyConstrains cons c) (parse s))

/-- Record of pipeline functions returned by composeWf. The third member of
the source (the safeEvolve wrapper) is not needed by any stated property
and is omitted. -/
structure Wf (C S E F : Type) : Type where
  execute : C → S → Result (ExecuteRes E S) F
  decide : C → S → Result (List E) F

/-- composeWf (src/core/workflows.ts): package the execute and decide
pipelines built from a state validator, a constraint list, a decision
function and an evolution function. -/
def composeWf {C S E F : Type} (parse : S → Result S F)
    (cons : List (C → S → Result S F)) (dec : C → S → Result (List E) F)
    (ev : E → S → S) : Wf C S E F :=
  Wf.mk (executeWf parse cons dec ev) (decideWf parse cons dec)

/-- Command types declared by the example waste command union. -/
def wasteCmdTypes : List String :=
  ["new-waste", "weight-waste", "store-waste", "set-pending-approval",
   "set-ready-for-shipping", "ship-waste"]

/-- Declared command types whose switch branch returns the failure code
not_implemented in the example dispatcher. -/
def wasteUnhandledTypes : List String :=
  ["store-waste", "set-pending-approval", "set-ready-for-shipping",
   "ship-waste"]

/-- Example dispatch router _wasteWf: a switch on the command type
discriminant routing to the two implemented workflow functions, returning
fail not_implemented for each declared but unimplemented type, and
fail invalid_command_type in the default branch reached by a type outside
the declared union. -/
def wasteWf {D S E : Type} (newWasteWf weightWasteWf : Msg D → S → Result E String)
    (cmd : Msg D) (s : S) : Result E String :=
  if cmd.type = "new-waste" then newWasteWf cmd s
  else if cmd.type = "weight-waste" then weightWasteWf cmd s
  else if cmd.type = "store-waste" then fail "not_implemented" none
  else if cmd.type = "set-pending-approval" then fail "not_implemented" none
  else if cmd.type = "set-ready-for-shipping" then fail "not_implemented" none
  else if cmd.type = "ship-waste" then fail "not_implemented" none
  else fail "invalid_command_type" none

/-- Validator stub accepting every unit state. -/
def parseIdU : Unit → Result Unit String := fun s => Result.success s

/-- Validator stub rejecting every unit state with a structural failure. -/
def parseRejectU : Unit → Result Unit String :=
  fun _ => Result.failure [Cause.mk "invalid_payload" none]

/-- Constraint stub that always passes. -/
def consPass : Unit → Unit → Result Unit String := fun _ _ => Result.success ()

/-- Constraint stub failing with a first business-rule code. -/
def consFailA : Unit → Unit → Result Unit String :=
  fun _ _ => fail "first_constraint_failed" none

/-- Constraint stub failing with a second business-rule code. -/
def consFailB : Unit → Unit → Result Unit String :=
  fun _ _ => fail "second_constraint_failed" none

/-- Decision stub returning no events. -/
def decEmpty : Unit → Unit → Result (List Unit) String :=
  fun _ _ => Result.success []

/-- Evolution stub on the unit state. -/
def evolveU : Unit → Unit → Unit := fun _ _ => ()

/-- Validator stub accepting every natural-number state. -/
def parseIdNat : Nat → Result Nat String := fun s => Result.success s

/-- Decision stub returning the single event 7. -/
def decideSeven : Unit → Nat → Result (List Nat) String :=
  fun _ _ => Result.success [7]

/-- Evolution function adding the event to the state. -/
def evolveAdd : Nat → Nat → Nat := fun e s => e + s

/-- Schema check stub accepting every unit-payload message. -/
def chkNoneU : Msg Unit → Option String := fun _ => none

/-- Workflow handler stub for the dispatch witnesses. -/
def wfStubU : Msg Unit → Unit → Result Unit String :=
  fun _ _ => Result.success ()

/-- Concrete unit-payload command with a given type discriminant. -/
def cmdOfType (t : String) : Msg Unit :=
  Msg.mk "idx" "cmd" t 0 (some "corr") none ()

/-- Once the accumulator has recorded a failure, the remaining passes of the
applyConstrains reduce leave it unchanged. -/
theorem foldl_constrainStep_of_failed {C S F : Type} (cmd : C) (st : S)
    (fns : List (C → S → Result S F)) (acc : ConstraintAcc S F)
    (h : acc.failedOnce = true) :
    List.foldl (constrainStep cmd st) acc fns = acc := by
  induction fns generalizing acc with
  | nil => rfl
  | cons fn fns ih =>
    have hstep : constrainStep cmd st acc fn = acc := by
      simp [constrainStep, h]
    rw [List.foldl_cons, hstep, ih acc h]

/-- When every constraint of the list passes, the applyConstrains reduce
keeps its initial accumulator. -/
theorem foldl_constrainStep_all_pass {C S F : Type} (cmd : C) (st : S)
    (fns : List (C → S → Result S F))
    (h : fns.all (fun fn => !isFailure (fn cmd st)) = true) :
    List.foldl (constrainStep cmd st) (ConstraintAcc.mk false (succeed st)) fns
      = ConstraintAcc.mk false (succeed st) := by
  induction fns with
  | nil => rfl
  | cons fn fns ih =>
    rw [List.all_cons, Bool.and_eq_true] at h
    have hf : isFailure (fn cmd st) = false := by simpa using h.1
    have hstep : constrainStep cmd st (ConstraintAcc.mk false (succeed st)) fn
        = ConstraintAcc.mk false (succeed st) := by
      simp [constrainStep, hf]
    rw [List.foldl_cons, hstep, ih h.2]

/-- applyConstrains succeeds with the unchanged state when every constraint
passes. -/
theorem applyConstrains_all_pass {C S F : Type}
    (fns : List (C → S → Result S F)) (cmd : C) (st : S)
    (h : fns.all (fun fn => !isFailure (fn cmd st)) = true) :
    applyConstrains fns cmd st = Result.success st := by
  unfold applyConstrains
  rw [foldl_constrainStep_all_pass cmd st fns h]
  rfl

/-- applyConstrains returns verbatim the failure of the first failing
constraint: whatever follows that constraint in the list cannot change the
result. -/
theorem applyConstrains_first_failure {C S F : Type} (cmd : C) (st : S)
    (pre : List (C → S → Result S F)) (k : C → S → Result S F)
    (rest : List (C → S → Result S F)) (cs : List (Cause F))
    (hpre : pre.all (fun fn => !isFailure (fn cmd st)) = true)
    (hk : k cmd st = Result.failure cs) :
    applyConstrains (pre ++ k :: rest) cmd st = Result.failure cs := by
  unfold applyConstrains
  rw [List.foldl_append, foldl_constrainStep_all_pass cmd st pre hpre,
    List.foldl_cons]
  have hstep : constrainStep cmd st (ConstraintAcc.mk false (succeed st)) k
      = ConstraintAcc.mk true (Result.failure cs) := by
    simp [constrainStep, hk, isFailure]
  rw [hstep, foldl_constrainStep_of_failed cmd st rest _ rfl]

/-- The instrumented reduce computes the same accumulator result as the
plain one. -/
theorem applyConstrainsTraced_fst {C S F : Type}
    (fns : List (C → S → Result S F)) (cmd : C) (st : S) :
    (applyConstrainsTraced fns cmd st).1 = applyConstrains fns cmd st := by
  have h : ∀ (acc : ConstraintAcc S F) (n : Nat),
      (List.foldl (constrainStepTraced cmd st) (acc, n) fns).1
        = List.foldl (constrainStep cmd st) acc fns := by
    induction fns with
    | nil => intro acc n; rfl
    | cons fn fns ih =>
      intro acc n
      rw [List.foldl_cons, List.foldl_cons]
      exact ih (constrainStep cmd st acc fn) (n + 1)
  unfold applyConstrainsTraced applyConstrains
  exact congrArg ConstraintAcc.res (h (ConstraintAcc.mk false (succeed st)) 0)

/-- The reduce of applyConstrains invokes every constraint of the list,
whether or not an earlier one has already failed. -/
theorem applyConstrainsTraced_count {C S F : Type}
    (fns : List (C → S → Result S F)) (cmd : C) (st : S) :
    (applyConstrainsTraced fns cmd st).2 = fns.length := by
  have h : ∀ (p : ConstraintAcc S F × Nat),
      (List.foldl (constrainStepTraced cmd st) p fns).2 = p.2 + fns.length := by
    induction fns with
    | nil => intro p; simp
    | cons fn fns ih =>
      intro p
      rw [List.foldl_cons, ih (constrainStepTraced cmd st p fn)]
      simp [constrainStepTraced]
      omega
  simpa [applyConstrainsTraced]
    using h (ConstraintAcc.mk false (succeed st), 0)

/-- A success returned by the structural validator is the input value
unchanged. -/
theorem safeParseTBox_success_eq {α : Type} (check : α → Option String)
    (x y : α) (h : safeParseTBox check x = Result.success y) : y = x := by
  cases hc : check x with
  | none =>
    have hx : safeParseTBox check x = Result.success x := by
      simp [safeParseTBox, hc, succeed]
    rw [hx] at h
    injection h with h
    exact h.symm
  | some e =>
    have hx : safeParseTBox check x
        = Result.failure [Cause.mk "parse_error" (some e)] := by
      simp [safeParseTBox, hc, fail]
    rw [hx] at h
    exact Result.noConfusion h

/-- C1 (code bug evaluation): with an accepting validator, no constraints, a
decision returning the single event 7 and the evolution evolveAdd, execute
applied to state 0 returns a success whose state field is the partial
application of the evolution function to the initial state (a closure) and
not the left-to-right fold evolveAdd 7 0 = 7 that the claim and the declared
Execute type require: `evt.reduce(_evolve, s)` feeds the accumulator into
the event parameter of the curried evolution function. -/
theorem C1_code_eval :
    (composeWf parseIdNat [] decideSeven evolveAdd).execute () 0
      = Result.success (ExecuteRes.mk [7] (JsVal.closure evolveAdd (JsVal.st 0)))
    ∧ JsVal.closure evolveAdd (JsVal.st 0)
      ≠ JsVal.st (List.foldl (fun st e => evolveAdd e st) 0 [7]) := by
  refine ⟨rfl, ?_⟩
  intro h
  exact JsVal.noConfusion h

/-- C3 (confirmed): when the state validator rejects the state, execute
returns the structural failure unchanged; the constraint list and the
decision function are universally quantified, so their results cannot
influence the output. -/
theorem C3_validator_gates {C S E F : Type} (parse : S → Result S F)
    (cons : List (C → S → Result S F)) (dec : C → S → Result (List E) F)
    (ev : E → S → S) (c : C) (s : S) (cs : List (Cause F))
    (hp : parse s = Result.failure cs) :
    (composeWf parse cons dec ev).execute c s = Result.failure cs := by
  show executeWf parse cons dec ev c s = Result.failure cs
  unfold executeWf
  rw [hp]
  rfl

/-- Witness for C3 at a concrete rejecting validator. -/
theorem C3_validator_gates_witness :
    (composeWf parseRejectU [consFailA] decEmpty evolveU).execute () ()
      = Result.failure [Cause.mk "invalid_payload" none] :=
  C3_validator_gates parseRejectU [consFailA] decEmpty evolveU () ()
    [Cause.mk "invalid_payload" none] rfl

/-- C2 (counterexample): the first of two constraints fails, yet the reduce
of applyConstrains still invokes the second one (two invocations are
performed), contradicting the part of the claim stating that later
constraints are not evaluated once one has failed; the returned failure is
nevertheless the first one, verbatim. -/
theorem C2_counterexample :
    isFailure (consFailA () ()) = true
    ∧ (applyConstrainsTraced [consFailA, consFailB] () ()).2 = 2
    ∧ applyConstrains [consFailA, consFailB] () ()
        = Result.failure [Cause.mk "first_constraint_failed" none] :=
  ⟨rfl, rfl, rfl⟩

/-- C2 (amended): with an accepted state, execute returns verbatim the
failure of the first failing constraint in list order, whatever the
constraints after it are (so swapping two failing constraints swaps the
returned failure); the reduce nevertheless invokes every constraint of the
list, merely discarding the results after the first failure. -/
theorem C2_first_failure {C S E F : Type} (parse : S → Result S F)
    (pre : List (C → S → Result S F)) (k : C → S → Result S F)
    (rest : List (C → S → Result S F)) (dec : C → S → Result (List E) F)
    (ev : E → S → S) (c : C) (s : S) (cs : List (Cause F))
    (hp : parse s = Result.success s)
    (hpre : pre.all (fun fn => !isFailure (fn c s)) = true)
    (hk : k c s = Result.failure cs) :
    (composeWf parse (pre ++ k :: rest) dec ev).execute c s = Result.failure cs
    ∧ (applyConstrainsTraced (pre ++ k :: rest) c s).2
        = (pre ++ k :: rest).length := by
  constructor
  · show executeWf parse (pre ++ k :: rest) dec ev c s = Result.failure cs
    have hcon := applyConstrains_first_failure c s pre k rest cs hpre hk
    unfold executeWf
    rw [hp]
    rw [show acceptRes (applyConstrains (pre ++ k :: rest) c)
      (Result.success s) = applyConstrains (pre ++ k :: rest) c s from rfl]
    rw [hcon]
    rfl
  · exact applyConstrainsTraced_count (pre ++ k :: rest) c s

/-- Witness for C2 at a passing constraint followed by two failing ones. -/
theorem C2_first_failure_witness :
    (composeWf parseIdU [consPass, consFailA, consFailB] decEmpty evolveU).execute () ()
      = Result.failure [Cause.mk "first_constraint_failed" none]
    ∧ (applyConstrainsTraced [consPass, consFailA, consFailB] () ()).2 = 3 :=
  C2_first_failure parseIdU [consPass] consFailA [consFailB] decEmpty evolveU
    () () [Cause.mk "first_constraint_failed" none] rfl rfl rfl

/-- C7 (confirmed): when the validator accepts the state, every constraint
passes and the decision returns the empty event list, execute returns a
success carrying no events and the input state unchanged (the empty reduce
returns its initial accumulator). -/
theorem C7_empty_decision {C S E F : Type} (parse : S → Result S F)
    (cons : List (C → S → Result S F)) (dec : C → S → Result (List E) F)
    (ev : E → S → S) (c : C) (s : S)
    (hp : parse s = Result.success s)
    (hcons : cons.all (fun fn => !isFailure (fn c s)) = true)
    (hdec : dec c s = Result.success ([] : List E)) :
    (composeWf parse cons dec ev).execute c s
      = Result.success (ExecuteRes.mk [] (JsVal.st s)) := by
  show executeWf parse cons dec ev c s = _
  unfold executeWf
  rw [hp]
  rw [show acceptRes (applyConstrains cons c) (Result.success s)
    = applyConstrains cons c s from rfl]
  rw [applyConstrains_all_pass cons c s hcons]
  rw [show acceptRes (dec c) (Result.success s) = dec c s from rfl]
  rw [hdec]
  rfl

/-- Witness for C7 at a concrete accepting pipeline. -/
theorem C7_empty_decision_witness :
    (composeWf parseIdU [consPass] decEmpty evolveU).execute () ()
      = Result.success (ExecuteRes.mk [] (JsVal.st ())) :=
  C7_empty_decision parseIdU [consPass] decEmpty evolveU () () rfl rfl rfl

/-- C10 (confirmed): the execute and decide members of the same composeWf
invocation agree: execute fails with exactly the failures decide fails
with, and when decide succeeds, execute succeeds with the same event
list. -/
theorem C10_decide_execute_agree {C S E F : Type} (parse : S → Result S F)
    (cons : List (C → S → Result S F)) (dec : C → S → Result (List E) F)
    (ev : E → S → S) (c : C) (s : S) :
    (∀ cs, (composeWf parse cons dec ev).execute c s = Result.failure cs
        ↔ (composeWf parse cons dec ev).decide c s = Result.failure cs)
    ∧ (∀ evts, (composeWf parse cons dec ev).decide c s = Result.success evts
        → (composeWf parse cons dec ev).execute c s
            = Result.success (ExecuteRes.mk evts (jsReduceEvolve ev evts s))) := by
  have hx : (composeWf parse cons dec ev).execute c s
      = (match (composeWf parse cons dec ev).decide c s with
        | Result.failure cs => (Result.failure cs : Result (ExecuteRes E S) F)
        | Result.success evts =>
            Result.success (ExecuteRes.mk evts (jsReduceEvolve ev evts s))) := rfl
  constructor
  · intro cs
    rw [hx]
    cases hd : (composeWf parse cons dec ev).decide c s with
    | success evts =>
      exact iff_of_false (fun h => Result.noConfusion h)
        (fun h => Result.noConfusion h)
    | failure cs2 => simp
  · intro evts hd
    rw [hx, hd]

/-- Witness for C10 at a concrete pipeline whose decision succeeds. -/
theorem C10_decide_execute_agree_witness :
    (composeWf parseIdU [consPass] decEmpty evolveU).execute () ()
      = Result.success (ExecuteRes.mk [] (jsReduceEvolve evolveU [] ())) :=
  (C10_decide_execute_agree parseIdU [consPass] decEmpty evolveU () ()).2 [] rfl

/-- C4 (counterexample): building a command from a trace that lacks a
correlationid but carries a causationid yields a message that keeps the
supplied causationid instead of clearing it: cleanDT only resets the
causationid when the whole trace is absent. -/
theorem C4_counterexample :
    newCmd "i" "f" 0 (safeParseTBox chkNoneU) "t"
        (some (DomainTrace.mk none (some "parent"))) ()
      = Result.success (Msg.mk "i" "cmd" "t" 0 (some "f") (some "parent") ())
    ∧ (some "parent" : Option String) ≠ none := by
  refine ⟨rfl, ?_⟩
  decide

/-- C4 (amended): a message built with no trace carries a fresh
correlationid and an absent causationid; a message built from a trace
without a truthy correlationid carries a fresh correlationid but retains
the supplied causationid; a message built from a trace with a truthy
correlationid keeps the trace unchanged. The statement covers newCmd and
newEvt through parsedNewMsg, of which they are the cmd and evt
instances. -/
theorem C4_trace_normalization {D : Type} (chk : Msg D → Option String)
    (fid fcorr : String) (t : Int) (mt ty : String)
    (tr : DomainTrace) (d : D) (m0 m1 : Msg D)
    (h0 : parsedNewMsg fid fcorr t mt (safeParseTBox chk) ty none d
        = Result.success m0)
    (h1 : parsedNewMsg fid fcorr t mt (safeParseTBox chk) ty (some tr) d
        = Result.success m1) :
    (m0.correlationid = some fcorr ∧ m0.causationid = none)
    ∧ (truthyStr tr.correlationid = false →
        m1.correlationid = some fcorr ∧ m1.causationid = tr.causationid)
    ∧ (truthyStr tr.correlationid = true →
        m1.correlationid = tr.correlationid
        ∧ m1.causationid = tr.causationid) := by
  have h0' : safeParseTBox chk (newMsg fid t mt ty (cleanDT fcorr none) d)
      = Result.success m0 := h0
  have hm0 : m0 = newMsg fid t mt ty (cleanDT fcorr none) d :=
    safeParseTBox_success_eq chk _ m0 h0'
  have h1' : safeParseTBox chk (newMsg fid t mt ty (cleanDT fcorr (some tr)) d)
      = Result.success m1 := h1
  have hm1 : m1 = newMsg fid t mt ty (cleanDT fcorr (some tr)) d :=
    safeParseTBox_success_eq chk _ m1 h1'
  subst hm0
  subst hm1
  refine ⟨⟨rfl, rfl⟩, ?_, ?_⟩
  · intro htr
    constructor <;> simp [newMsg, cleanDT, htr]
  · intro htr
    constructor <;> simp [newMsg, cleanDT, htr]

/-- Witness for C4 at a concrete missing trace and a concrete trace lacking
a correlationid. -/
theorem C4_trace_normalization_witness :
    ((Msg.mk "i" "cmd" "t" 0 (some "f") none ()).correlationid = some "f"
      ∧ (Msg.mk "i" "cmd" "t" 0 (some "f") none ()).causationid = none)
    ∧ ((Msg.mk "i" "cmd" "t" 0 (some "f") (some "x") ()).correlationid = some "f"
      ∧ (Msg.mk "i" "cmd" "t" 0 (some "f") (some "x") ()).causationid
          = (DomainTrace.mk none (some "x")).causationid) :=
  have h := C4_trace_normalization chkNoneU "i" "f" 0 "cmd" "t"
    (DomainTrace.mk none (some "x")) ()
    (Msg.mk "i" "cmd" "t" 0 (some "f") none ())
    (Msg.mk "i" "cmd" "t" 0 (some "f") (some "x") ()) rfl rfl
  ⟨h.1, h.2.1 rfl⟩

/-- C5 (confirmed): dtFromMsg returns the pair of the correlationid of the
message and its id as causationid; a command successfully built with no
trace has an absent causationid and the freshly generated correlationid;
a command successfully built from dtFromMsg of that first message has the
id of the first message as causationid and shares its correlationid (the
generated uuid is a non-empty string, which the hypothesis on corr1
records). -/
theorem C5_dt_chain {D : Type} (m : Msg D)
    (chk1 chk2 : Msg D → Option String)
    (id1 corr1 ty1 : String) (t1 : Int) (d1 : D)
    (id2 corr2 ty2 : String) (t2 : Int) (d2 : D)
    (m1 m2 : Msg D)
    (hcorr : corr1 ≠ "")
    (h1 : newCmd id1 corr1 t1 (safeParseTBox chk1) ty1 none d1
        = Result.success m1)
    (h2 : newCmd id2 corr2 t2 (safeParseTBox chk2) ty2
        (some (dtFromMsg m1)) d2 = Result.success m2) :
    dtFromMsg m = DomainTrace.mk m.correlationid (some m.id)
    ∧ m1.causationid = none
    ∧ m1.correlationid = some corr1
    ∧ m2.causationid = some m1.id
    ∧ m2.correlationid = m1.correlationid := by
  have h1' : safeParseTBox chk1
      (newMsg id1 t1 "cmd" ty1 (cleanDT corr1 none) d1) = Result.success m1 := h1
  have hm1 : m1 = newMsg id1 t1 "cmd" ty1 (cleanDT corr1 none) d1 :=
    safeParseTBox_success_eq chk1 _ m1 h1'
  subst hm1
  have h2' : safeParseTBox chk2
      (newMsg id2 t2 "cmd" ty2 (cleanDT corr2
        (some (dtFromMsg (newMsg id1 t1 "cmd" ty1 (cleanDT corr1 none) d1)))) d2)
      = Result.success m2 := h2
  have hm2 : m2 = newMsg id2 t2 "cmd" ty2 (cleanDT corr2
      (some (dtFromMsg (newMsg id1 t1 "cmd" ty1 (cleanDT corr1 none) d1)))) d2 :=
    safeParseTBox_success_eq chk2 _ m2 h2'
  subst hm2
  refine ⟨rfl, rfl, rfl, ?_, ?_⟩
  · simp [newMsg, cleanDT, dtFromMsg, truthyStr, hcorr]
  · simp [newMsg, cleanDT, dtFromMsg, truthyStr, hcorr]

/-- Witness for C5 at concrete generator values and an always-accepting
schema check. -/
theorem C5_dt_chain_witness :
    dtFromMsg (Msg.mk "mm" "evt" "e" 5 (some "q") (some "p") ())
        = DomainTrace.mk (some "q") (some "mm")
    ∧ (Msg.mk "a" "cmd" "t" 0 (some "c") none ()).causationid = none
    ∧ (Msg.mk "a" "cmd" "t" 0 (some "c") none ()).correlationid = some "c"
    ∧ (Msg.mk "b" "cmd" "u" 1 (some "c") (some "a") ()).causationid
        = some (Msg.mk "a" "cmd" "t" 0 (some "c") none ()).id
    ∧ (Msg.mk "b" "cmd" "u" 1 (some "c") (some "a") ()).correlationid
        = (Msg.mk "a" "cmd" "t" 0 (some "c") none ()).correlationid :=
  C5_dt_chain (Msg.mk "mm" "evt" "e" 5 (some "q") (some "p") ())
    chkNoneU chkNoneU "a" "c" "t" 0 () "b" "z" "u" 1 ()
    (Msg.mk "a" "cmd" "t" 0 (some "c") none ())
    (Msg.mk "b" "cmd" "u" 1 (some "c") (some "a") ())
    (by decide) rfl rfl

/-- C6 (confirmed): dispatching a command whose type discriminant is outside
the declared union returns the failure code invalid_command_type, while a
declared type without an implemented handler returns the distinct code
not_implemented, whatever the two implemented handlers do. -/
theorem C6_routing_taxonomy {D S E : Type}
    (h1 h2 : Msg D → S → Result E String) (cmd : Msg D) (s : S) :
    (cmd.type ∉ wasteCmdTypes →
        wasteWf h1 h2 cmd s = fail "invalid_command_type" none)
    ∧ (cmd.type ∈ wasteUnhandledTypes →
        wasteWf h1 h2 cmd s = fail "not_implemented" none)
    ∧ "invalid_command_type" ≠ "not_implemented" := by
  refine ⟨?_, ?_, by decide⟩
  · intro hmem
    simp only [wasteCmdTypes, List.mem_cons, List.mem_singleton,
      List.not_mem_nil] at hmem
    push_neg at hmem
    obtain ⟨n1, n2, n3, n4, n5, n6⟩ := hmem
    simp [wasteWf, n1, n2, n3, n4, n5, n6]
  · intro hmem
    simp only [wasteUnhandledTypes, List.mem_cons, List.mem_singleton,
      List.not_mem_nil, or_false] at hmem
    rcases hmem with h | h | h | h <;> simp [wasteWf, h]

/-- Witness for C6 at an undeclared command type and at a declared but
unhandled one. -/
theorem C6_routing_taxonomy_witness :
    wasteWf wfStubU wfStubU (cmdOfType "no-such-command") ()
        = fail "invalid_command_type" none
    ∧ wasteWf wfStubU wfStubU (cmdOfType "store-waste") ()
        = fail "not_implemented" none :=
  ⟨(C6_routing_taxonomy wfStubU wfStubU (cmdOfType "no-such-command") ()).1
      (by decide),
   (C6_routing_taxonomy wfStubU wfStubU (cmdOfType "store-waste") ()).2.1
      (by decide)⟩

/-- C8 (counterexample): failMany accepts the empty cause array and then
produces a Failure whose cause list is empty, contradicting the claim that
every cause list accepted by failMany yields a non-empty cause field. -/
theorem C8_counterexample :
    (failMany ([] : List (Cause String)) : Result Unit String)
        = Result.failure []
    ∧ causesOf (failMany ([] : List (Cause String)) : Result Unit String)
        = [] :=
  ⟨rfl, rfl⟩

/-- C8 (amended): fail always yields a failure with exactly one cause, and
failMany yields a failure carrying its argument verbatim, whose cause list
is therefore non-empty exactly when the supplied array is non-empty;
failMany itself enforces no non-emptiness. -/
theorem C8_cause_lists {F : Type} (msg : F) (dat : Option String)
    (cs : List (Cause F)) (hcs : cs ≠ []) :
    (fail msg dat : Result Unit F) = Result.failure [Cause.mk msg dat]
    ∧ (causesOf (fail msg dat : Result Unit F)).length = 1
    ∧ (failMany cs : Result Unit F) = Result.failure cs
    ∧ causesOf (failMany cs : Result Unit F) ≠ [] := by
  refine ⟨rfl, rfl, rfl, ?_⟩
  simpa [causesOf, failMany] using hcs

/-- Witness for C8 at a concrete code and a concrete non-empty cause
list. -/
theorem C8_cause_lists_witness :
    (fail "boom" none : Result Unit String)
        = Result.failure [Cause.mk "boom" none]
    ∧ (causesOf (fail "boom" none : Result Unit String)).length = 1
    ∧ (failMany [Cause.mk "boom" none] : Result Unit String)
        = Result.failure [Cause.mk "boom" none]
    ∧ causesOf (failMany [Cause.mk "boom" none] : Result Unit String) ≠ [] :=
  C8_cause_lists "boom" none [Cause.mk "boom" none] (List.cons_ne_nil _ _)

/-- C9 (confirmed): for every schema check and every input, the structural
validator totally computes either the success of the unchanged input, or a
failure with the single code parse_error carrying the underlying schema
violation as diagnostic data; no exception escapes. -/
theorem C9_safeParse_total {α : Type} (check : α → Option String) (x : α) :
    safeParseTBox check x = Result.success x
    ∨ ∃ e, check x = some e
        ∧ safeParseTBox check x
            = Result.failure [Cause.mk "parse_error" (some e)] := by
  cases hc : check x with
  | none =>
    left
    simp [safeParseTBox, hc, succeed]
  | some e =>
    right
    exact ⟨e, rfl, by simp [safeParseTBox, hc, fail]⟩

end DcTs
